import Mathlib

set_option autoImplicit false

/-!
Shallow embedding of `src/main.py`: a FastAPI backend with three process-wide
mutable dictionaries (`request_counts`, `last_contact_time`, `users`) and the
routes `register_user`, `verify_email`, `create_contact`, plus the helpers
`can_create_contact` and the `rate_limit` decorator.

Modelling conventions:
- Timestamps and periods are integers counting microseconds, the resolution of
  Python `datetime` / `timedelta`; `timedelta(minutes=1)` is `60 * 1000000`.
  The several `datetime.now()` reads made while one request is handled are
  modelled as a single instant `now` passed to the operation.
- The three global dictionaries become the fields of `AppState`; each
  operation takes the state and returns the new state paired with
  `Except ApiError result`. An `HTTPException` raised after a dictionary was
  mutated returns the mutated state with the error, exactly as the Python
  globals keep their mutations when an exception propagates.
- `uuid4()` (token generation) and the Cloudinary upload are external
  effects: the generated token, and the upload outcome (`some secure_url` on
  success, `none` when the uploader fails), are inputs of the operations.
-/

structure UserRecord where
  verified : Bool
  verification_token : String
  deriving DecidableEq

/-- The three module-level dictionaries of `src/main.py`:
`request_counts` (origin → time of last throttled request),
`last_contact_time` (email → time of last contact creation),
`users` (email → registration record). -/
structure AppState where
  request_counts : String → Option Int
  last_contact_time : String → Option Int
  users : String → Option UserRecord

/-- Dictionary update `d[k] = v`. -/
def upd {α : Type} (f : String → Option α) (k : String) (v : α) :
    String → Option α :=
  fun x => if x = k then some v else f x

/-- The state at process start: all three dictionaries empty. -/
def emptyState : AppState :=
  { request_counts := fun _ => none,
    last_contact_time := fun _ => none,
    users := fun _ => none }

/-- The `HTTPException`s raised in `src/main.py` (plus the propagated
uploader failure), by status code and payload:
`invalidEmail` = 400 Invalid email address, `invalidCredential` = 400
Invalid email or token, `unauthorized` = 401, `rateLimitedThrottle` = 429
carrying the remaining wait `per - time_elapsed` in microseconds,
`rateLimitedCooldown` = 429 with no wait value, `upstreamUnavailable` =
the error surfaced when the Cloudinary upload fails. -/
inductive ApiError where
  | invalidEmail : ApiError
  | invalidCredential : ApiError
  | unauthorized : ApiError
  | rateLimitedThrottle (time_to_wait : Int) : ApiError
  | rateLimitedCooldown : ApiError
  | upstreamUnavailable : ApiError
  deriving DecidableEq

def ApiError.statusCode : ApiError → Nat
  | .invalidEmail => 400
  | .invalidCredential => 400
  | .unauthorized => 401
  | .rateLimitedThrottle _ => 429
  | .rateLimitedCooldown => 429
  | .upstreamUnavailable => 502

/-- The retry-after value carried by an error: only the throttle's 429
message contains the remaining wait (`Try again in ... seconds`); the
cooldown's 429 is generic (`Try again later.`). -/
def ApiError.retryAfter : ApiError → Option Int
  | .rateLimitedThrottle t => some t
  | _ => none

/-- `timedelta(minutes=1)` in microseconds; the period of both the
`rate_limit` decorator on `create_contact` (line 155) and the cooldown
check inside it (line 166). -/
def oneMinute : Int := 60 * 1000000

/-- `can_create_contact(user_id, per)` (src/main.py lines 54-68): returns
`false` iff an entry exists in `last_contact_time` and the elapsed time
since it is `< per`. Reads the state, never writes it. -/
def can_create_contact (user_id : String) (per : Int) (now : Int)
    (st : AppState) : Bool :=
  match st.last_contact_time user_id with
  | some last_contact =>
    let time_elapsed := now - last_contact
    if time_elapsed < per then false else true
  | none => true

/-- The `rate_limit(limit, per)` decorator (src/main.py lines 73-99): if
`request_counts` holds an entry for the caller's origin and the elapsed
time is `< per`, raise 429 carrying `per - time_elapsed` and leave the
state untouched; otherwise record `now` for the origin and invoke the
wrapped handler on the updated state. The `limit` argument is declared
but never read in the source, which this definition mirrors. -/
def rate_limit {R : Type} (limit : Int) (per : Int)
    (func : Int → AppState → AppState × Except ApiError R)
    (user_id : String) (now : Int) (st : AppState) :
    AppState × Except ApiError R :=
  match st.request_counts user_id with
  | some last_request_time =>
    let time_elapsed := now - last_request_time
    if time_elapsed < per then
      (st, Except.error (ApiError.rateLimitedThrottle (per - time_elapsed)))
    else
      func now { st with request_counts := upd st.request_counts user_id now }
  | none =>
    func now { st with request_counts := upd st.request_counts user_id now }

/-- The email guard of `register_user` (src/main.py lines 113-115):
`_, email_address = parseaddr(email); if not email_address or '@' not in
email: raise 400`. For plain addr-spec inputs (no display name, angle
brackets, quotes, commas, comments or surrounding whitespace)
`email.utils.parseaddr` returns the input string itself, so on such
inputs — the only ones this development evaluates — the guard reduces to:
the string is nonempty and contains the character `@` (the containment
test is phrased over the string's character list). -/
def register_email_ok (email : String) : Bool :=
  !(email == "") && email.data.contains '@'

/-- `register_user` (src/main.py lines 110-128). `verification_token`
models the `str(uuid4())` draw. Creates or overwrites the user's record
with `verified = False` and the fresh token; the verification email is a
fire-and-forget background task with no effect on the modelled state. -/
def register_user (email : String) (verification_token : String)
    (st : AppState) : AppState × Except ApiError String :=
  if !(register_email_ok email) then
    (st, Except.error ApiError.invalidEmail)
  else
    ({ st with users := upd st.users email ⟨false, verification_token⟩ },
     Except.ok "User registered successfully. Verification email sent.")

/-- `verify_email` (src/main.py lines 133-142): 400 if the email is
unknown or the stored token differs from the supplied one; otherwise set
`verified = True` (the stored token is kept). -/
def verify_email (email : String) (token : String) (st : AppState) :
    AppState × Except ApiError String :=
  match st.users email with
  | none => (st, Except.error ApiError.invalidCredential)
  | some u =>
    if u.verification_token ≠ token then
      (st, Except.error ApiError.invalidCredential)
    else
      ({ st with users := upd st.users email { u with verified := true } },
       Except.ok "Email verified successfully")

/-- The spec's `is_verified(identity)` accessor: the stored flag, or
`false` when the identity is unknown — the reading the code performs at
src/main.py line 161. -/
def is_verified (st : AppState) (identity : String) : Bool :=
  match st.users identity with
  | some u => u.verified
  | none => false

/-- The 401 guard of `create_contact` (src/main.py line 161):
`user_email not in users or not users[user_email]["verified"]`. -/
def user_not_verified (st : AppState) (email : String) : Bool :=
  match st.users email with
  | none => true
  | some u => !u.verified

/-- The body of `create_contact` after the decorator (src/main.py lines
156-178): 401 if unregistered or unverified; 429 (generic) if
`can_create_contact` refuses; otherwise record `now` in
`last_contact_time` and only then attempt the upload, whose outcome is
the input `upload_result` (`some secure_url` or failure). -/
def create_contact_handler (upload_result : Option String)
    (user_email : String) (now : Int) (st : AppState) :
    AppState × Except ApiError (String × String) :=
  if user_not_verified st user_email then
    (st, Except.error ApiError.unauthorized)
  else if !(can_create_contact user_email oneMinute now st) then
    (st, Except.error ApiError.rateLimitedCooldown)
  else
    let st1 :=
      { st with last_contact_time := upd st.last_contact_time user_email now }
    match upload_result with
    | none => (st1, Except.error ApiError.upstreamUnavailable)
    | some secure_url =>
      (st1, Except.ok ("Contact created successfully", secure_url))

/-- The `/create_contact/` route as deployed: the handler wrapped in
`rate_limit(limit=5, per=timedelta(minutes=1))`, keyed by the caller's
network origin (src/main.py lines 153-156). -/
def create_contact (upload_result : Option String) (origin : String)
    (user_email : String) (now : Int) (st : AppState) :
    AppState × Except ApiError (String × String) :=
  rate_limit 5 oneMinute (create_contact_handler upload_result user_email)
    origin now st

/-- Whether the throttle gate lets a call from `origin` at time `now`
through: no entry, or elapsed time not below the period. -/
def throttle_passes (st : AppState) (origin : String) (per : Int)
    (now : Int) : Bool :=
  match st.request_counts origin with
  | some last => !(now - last < per)
  | none => true

/-- State after `register_user "a@example.com"` at process start, with
generated token `tok`. -/
def stReg : AppState := (register_user "a@example.com" "tok" emptyState).1

/-- `stReg` after a successful `verify_email`. -/
def stVer : AppState := (verify_email "a@example.com" "tok" stReg).1

/-- A trivially succeeding wrapped handler, used to observe whether the
`rate_limit` gate lets a call through. -/
def okFunc : Int → AppState → AppState × Except ApiError Int :=
  fun _ s => (s, Except.ok 0)

/-- A throttle entry for origin `o` recorded at time 0, nothing else. -/
def stT : AppState :=
  { emptyState with request_counts := upd emptyState.request_counts "o" 0 }

/-- A verified user `a@x.com` whose last contact creation happened at
time 0; no throttle entry. -/
def stC : AppState :=
  { request_counts := fun _ => none,
    last_contact_time := upd (fun _ => none) "a@x.com" 0,
    users := upd (fun _ => none) "a@x.com" ⟨true, "tok"⟩ }

/-- Like `stC` but with a throttle entry for origin `o` at time 0 as
well: both gates have an entry recorded at time 0. -/
def stB : AppState :=
  { request_counts := upd (fun _ => none) "o" 0,
    last_contact_time := upd (fun _ => none) "a@x.com" 0,
    users := upd (fun _ => none) "a@x.com" ⟨true, "tok"⟩ }

/-- A verified user `a@x.com` with both gates empty: every guard of
`create_contact` passes. -/
def stV0 : AppState :=
  { request_counts := fun _ => none,
    last_contact_time := fun _ => none,
    users := upd (fun _ => none) "a@x.com" ⟨true, "tok"⟩ }

/-- The body of `create_contact` never writes the `users` dictionary. -/
theorem create_contact_handler_users (up : Option String) (e : String)
    (now : Int) (st : AppState) :
    ((create_contact_handler up e now st).1).users = st.users := by
  unfold create_contact_handler
  split
  · rfl
  · split
    · rfl
    · cases up <;> rfl

/-- The `rate_limit` wrapper preserves any property of the `users`
dictionary that the wrapped handler preserves. -/
theorem rate_limit_users {R : Type} (limit per : Int)
    (func : Int → AppState → AppState × Except ApiError R)
    (o : String) (now : Int) (st : AppState)
    (hf : ∀ n s, ((func n s).1).users = s.users) :
    ((rate_limit limit per func o now st).1).users = st.users := by
  unfold rate_limit
  cases st.request_counts o with
  | none => exact hf _ _
  | some t =>
    dsimp only
    split
    · rfl
    · exact hf _ _

/-- The `create_contact` route never writes the `users` dictionary. -/
theorem create_contact_users (up : Option String) (o e : String)
    (now : Int) (st : AppState) :
    ((create_contact up o e now st).1).users = st.users := by
  unfold create_contact
  exact rate_limit_users 5 oneMinute _ o now st
    (fun n s => create_contact_handler_users up e n s)

/-- Claim C1, as stated, is false: `register_user` on an already verified
identity overwrites its record with `verified = False`. Concretely,
after registering and verifying `a@example.com` the identity is
verified, and re-registering it leaves it unverified. -/
theorem C1_counterexample :
    is_verified stVer "a@example.com" = true ∧
    is_verified (register_user "a@example.com" "tok2" stVer).1
      "a@example.com" = false := by
  exact ⟨rfl, rfl⟩

/-- Claim C1 amended: for an identity `I` verified in state `st`,
`verify_email` (any arguments) and `create_contact` (any arguments)
leave `I` verified, and so does `register_user` for a different email;
but `register_user` for `I` itself (with an accepted email) resets `I`
to unverified. -/
theorem C1_amended (st : AppState) (I : String)
    (h : is_verified st I = true) :
    (∀ e t, is_verified (verify_email e t st).1 I = true) ∧
    (∀ up o e now, is_verified (create_contact up o e now st).1 I = true) ∧
    (∀ e tok, e ≠ I → is_verified (register_user e tok st).1 I = true) ∧
    (∀ tok, register_email_ok I = true →
      is_verified (register_user I tok st).1 I = false) := by
  refine ⟨?_, ?_, ?_, ?_⟩
  · intro e t
    cases hu : st.users e with
    | none =>
      simp only [verify_email, hu]
      exact h
    | some u =>
      simp only [verify_email, hu]
      by_cases ht : u.verification_token = t
      · rw [if_neg (fun hne => hne ht)]
        by_cases hIe : I = e
        · subst hIe
          simp [is_verified, upd]
        · simp only [is_verified, upd] at h ⊢
          rw [if_neg hIe]
          exact h
      · rw [if_pos ht]
        exact h
  · intro up o e now
    have hu := create_contact_users up o e now st
    unfold is_verified at h ⊢
    rw [hu]
    exact h
  · intro e tok hne
    unfold register_user
    split
    · exact h
    · simp only [is_verified, upd] at h ⊢
      rw [if_neg (fun hIe => hne hIe.symm)]
      exact h
  · intro tok hok
    unfold register_user
    rw [if_neg (by rw [hok]; exact fun hc => by cases hc)]
    simp [is_verified, upd]

/-- Instantiation of the amended C1 at the verified state `stVer`:
verifying with another email and creating a contact keep
`a@example.com` verified, and re-registration resets it. -/
theorem C1_amended_witness :
    is_verified (verify_email "b@x.com" "t" stVer).1 "a@example.com" = true ∧
    is_verified (create_contact none "o" "b@x.com" 0 stVer).1
      "a@example.com" = true ∧
    is_verified (register_user "a@example.com" "tok2" stVer).1
      "a@example.com" = false := by
  have h := C1_amended stVer "a@example.com" (by decide)
  exact ⟨h.1 "b@x.com" "t", h.2.1 none "o" "b@x.com" 0,
    h.2.2.2 "tok2" (by decide)⟩

/-- Claim C2: with a throttle entry for origin `O` recorded at `t1`, a
second acquisition at `t2` with elapsed time `t2 - t1 < P` fails with the
429 `rateLimitedThrottle` error carrying exactly `P - (t2 - t1)` (an
exact microsecond count, hence sub-second precision) and leaves the
state unchanged; with `t2 - t1 >= P` the gate passes: the wrapped
handler runs on the state with the entry refreshed to `t2`. -/
theorem C2_throttle {R : Type} (limit P t1 t2 : Int) (O : String)
    (st : AppState) (func : Int → AppState → AppState × Except ApiError R)
    (h1 : st.request_counts O = some t1) :
    (t2 - t1 < P →
      rate_limit limit P func O t2 st =
        (st, Except.error (ApiError.rateLimitedThrottle (P - (t2 - t1)))) ∧
      (ApiError.rateLimitedThrottle (P - (t2 - t1))).statusCode = 429) ∧
    (P ≤ t2 - t1 →
      rate_limit limit P func O t2 st =
        func t2 { st with request_counts := upd st.request_counts O t2 }) := by
  constructor
  · intro hlt
    refine ⟨?_, rfl⟩
    unfold rate_limit
    rw [h1]
    exact if_pos hlt
  · intro hge
    unfold rate_limit
    rw [h1]
    exact if_neg (not_lt.mpr hge)

/-- The two branches of C2 at concrete inputs: origin `o` recorded at
time 0; a call at time 1 is refused with the remaining wait, a call at
time `oneMinute` reaches the handler. -/
theorem C2_throttle_witness :
    rate_limit 5 oneMinute okFunc "o" 1 stT =
      (stT, Except.error (ApiError.rateLimitedThrottle (oneMinute - (1 - 0)))) ∧
    rate_limit 5 oneMinute okFunc "o" oneMinute stT =
      okFunc oneMinute
        { stT with request_counts := upd stT.request_counts "o" oneMinute } := by
  constructor
  · exact ((C2_throttle 5 oneMinute 0 1 "o" stT okFunc rfl).1 (by decide)).1
  · exact (C2_throttle 5 oneMinute 0 oneMinute "o" stT okFunc rfl).2 (by decide)

/-- Claim C4: at the exact boundary `elapsed = period` both gates let the
call through: the `rate_limit` wrapper invokes the handler, and
`can_create_contact` returns true. -/
theorem C4_boundary {R : Type} (limit P t now : Int) (O I : String)
    (st : AppState) (func : Int → AppState → AppState × Except ApiError R)
    (hO : st.request_counts O = some t)
    (hI : st.last_contact_time I = some t)
    (h : now - t = P) :
    rate_limit limit P func O now st =
      func now { st with request_counts := upd st.request_counts O now } ∧
    can_create_contact I P now st = true := by
  constructor
  · unfold rate_limit
    rw [hO]
    exact if_neg (by rw [h]; exact lt_irrefl P)
  · unfold can_create_contact
    rw [hI]
    exact if_neg (by rw [h]; exact lt_irrefl P)

/-- C4 at concrete inputs: entries at time 0, call at exactly one
minute. -/
theorem C4_boundary_witness :
    rate_limit 5 oneMinute okFunc "o" oneMinute stB =
      okFunc oneMinute
        { stB with request_counts := upd stB.request_counts "o" oneMinute } ∧
    can_create_contact "a@x.com" oneMinute oneMinute stB = true :=
  C4_boundary 5 oneMinute 0 oneMinute "o" "a@x.com" stB okFunc rfl rfl
    (by decide)

/-- Claim C10: the `limit` argument of `rate_limit` is never read, so for
every limit value (5, the configured one, included) the wrapped handler
behaves exactly as with `limit = 1`, on every origin, time and state. -/
theorem C10_limit_dead {R : Type} (per : Int)
    (func : Int → AppState → AppState × Except ApiError R)
    (user_id : String) (now : Int) (st : AppState) :
    ∀ limit : Int, rate_limit limit per func user_id now st =
      rate_limit 1 per func user_id now st :=
  fun _ => rfl

/-- When the throttle gate lets an origin through, `rate_limit` refreshes
its entry to `now` and runs the wrapped handler on the updated state. -/
theorem rate_limit_passes {R : Type} (limit per : Int)
    (func : Int → AppState → AppState × Except ApiError R)
    (O : String) (now : Int) (st : AppState)
    (h : throttle_passes st O per now = true) :
    rate_limit limit per func O now st =
      func now { st with request_counts := upd st.request_counts O now } := by
  unfold rate_limit
  unfold throttle_passes at h
  cases hrc : st.request_counts O with
  | none => rfl
  | some t =>
    rw [hrc] at h
    exact if_neg (by simpa using h)

/-- The body of `create_contact` never writes the `request_counts`
dictionary (only the decorator does). -/
theorem create_contact_handler_request_counts (up : Option String)
    (e : String) (now : Int) (st : AppState) :
    ((create_contact_handler up e now st).1).request_counts =
      st.request_counts := by
  unfold create_contact_handler
  split
  · rfl
  · split
    · rfl
    · cases up <;> rfl

/-- Claim C3: a second contact creation for the same verified identity
`I` within the cooldown window, passing the throttle, returns the
generic 429 `rateLimitedCooldown` error — it carries no retry-after
value — with only the throttle entry updated, and the outcome does not
depend on the upload result (the upload is never reached). -/
theorem C3_cooldown (st : AppState) (O I : String) (t1 t2 : Int)
    (up : Option String)
    (hthr : throttle_passes st O oneMinute t2 = true)
    (hver : user_not_verified st I = false)
    (hcool : st.last_contact_time I = some t1)
    (hlt : t2 - t1 < oneMinute) :
    create_contact up O I t2 st =
      ({ st with request_counts := upd st.request_counts O t2 },
        Except.error ApiError.rateLimitedCooldown) ∧
    ApiError.rateLimitedCooldown.statusCode = 429 ∧
    ApiError.rateLimitedCooldown.retryAfter = none ∧
    create_contact up O I t2 st = create_contact none O I t2 st := by
  have key : ∀ u : Option String, create_contact u O I t2 st =
      ({ st with request_counts := upd st.request_counts O t2 },
        Except.error ApiError.rateLimitedCooldown) := by
    intro u
    have hver' : user_not_verified
        { st with request_counts := upd st.request_counts O t2 } I = false :=
      hver
    have hcan : can_create_contact I oneMinute t2
        { st with request_counts := upd st.request_counts O t2 } = false := by
      unfold can_create_contact
      rw [show ({ st with request_counts := upd st.request_counts O t2 } :
        AppState).last_contact_time I = some t1 from hcool]
      exact if_pos hlt
    unfold create_contact
    rw [rate_limit_passes 5 oneMinute (create_contact_handler u I) O t2 st
      hthr]
    unfold create_contact_handler
    rw [hver', hcan]
    simp
  exact ⟨key up, rfl, rfl, (key up).trans (key none).symm⟩

/-- C3 at concrete inputs: verified `a@x.com` created a contact at time
0; a new attempt at time 1 passes the (empty) throttle, is refused by
the cooldown, and the outcome is the same whether the uploader would
have succeeded or failed. -/
theorem C3_cooldown_witness :
    create_contact (some "url") "o" "a@x.com" 1 stC =
      ({ stC with request_counts := upd stC.request_counts "o" 1 },
        Except.error ApiError.rateLimitedCooldown) ∧
    create_contact (some "url") "o" "a@x.com" 1 stC =
      create_contact none "o" "a@x.com" 1 stC := by
  have h := C3_cooldown stC "o" "a@x.com" 0 1 (some "url") (by decide)
    (by decide) (by decide) (by decide)
  exact ⟨h.1, h.2.2.2⟩

/-- Claim C5: `verify_email` succeeds and flips `verified` to true iff a
record exists for the email and its stored token equals the supplied one
(string equality, hence case-sensitive); in every other case — unknown
email or wrong token alike — it returns the single 400
`invalidCredential` error, leaves the state untouched, and in particular
every record's verification flag is unchanged. -/
theorem C5_verify (st : AppState) (email token : String) :
    ((∃ u, st.users email = some u ∧ u.verification_token = token) →
      (verify_email email token st).2 =
        Except.ok "Email verified successfully" ∧
      is_verified (verify_email email token st).1 email = true) ∧
    ((∀ u, st.users email = some u → ¬u.verification_token = token) →
      verify_email email token st =
        (st, Except.error ApiError.invalidCredential) ∧
      ApiError.invalidCredential.statusCode = 400 ∧
      ∀ e, is_verified (verify_email email token st).1 e = is_verified st e) := by
  constructor
  · rintro ⟨u, hu, ht⟩
    simp only [verify_email, hu]
    rw [if_neg (fun hne => hne ht)]
    exact ⟨rfl, by simp [is_verified, upd]⟩
  · intro hbad
    have key : verify_email email token st =
        (st, Except.error ApiError.invalidCredential) := by
      cases hu : st.users email with
      | none => simp only [verify_email, hu]
      | some u =>
        simp only [verify_email, hu]
        rw [if_pos (hbad u hu)]
    exact ⟨key, rfl, fun e => by rw [key]⟩

/-- C5 at concrete inputs: on the freshly registered `a@example.com`
with stored token `tok`, verifying with `tok` succeeds and verifies the
identity, and verifying with the wrong token `bad` returns
`invalidCredential` with the state unchanged. -/
theorem C5_verify_witness :
    (verify_email "a@example.com" "tok" stReg).2 =
      Except.ok "Email verified successfully" ∧
    is_verified (verify_email "a@example.com" "tok" stReg).1
      "a@example.com" = true ∧
    verify_email "a@example.com" "bad" stReg =
      (stReg, Except.error ApiError.invalidCredential) := by
  have h1 := (C5_verify stReg "a@example.com" "tok").1
    ⟨⟨false, "tok"⟩, by decide, rfl⟩
  have h2 := (C5_verify stReg "a@example.com" "bad").2 (by
    intro u hu
    have hval : stReg.users "a@example.com" = some ⟨false, "tok"⟩ := by decide
    rw [hval] at hu
    cases hu
    decide)
  exact ⟨h1.1, h1.2, h2.1⟩

/-- Claim C6: once the throttle gate passes for origin `O`, the entry
for `O` is set to the current time whatever happens downstream — for
every upload outcome and every identity; in particular a `create_contact`
for an email that was never registered fails with 401 `unauthorized` and
the throttle entry still holds the current time. -/
theorem C6_throttle_consumed (st : AppState) (O : String) (now : Int)
    (hthr : throttle_passes st O oneMinute now = true) :
    (∀ (up : Option String) (I : String),
      ((create_contact up O I now st).1).request_counts O = some now) ∧
    (∀ (up : Option String) (I : String), st.users I = none →
      (create_contact up O I now st).2 = Except.error ApiError.unauthorized ∧
      ApiError.unauthorized.statusCode = 401) := by
  constructor
  · intro up I
    unfold create_contact
    rw [rate_limit_passes 5 oneMinute (create_contact_handler up I) O now st
      hthr]
    rw [create_contact_handler_request_counts up I now
      { st with request_counts := upd st.request_counts O now }]
    simp [upd]
  · intro up I hI
    unfold create_contact
    rw [rate_limit_passes 5 oneMinute (create_contact_handler up I) O now st
      hthr]
    have hnv : user_not_verified
        { st with request_counts := upd st.request_counts O now } I = true := by
      unfold user_not_verified
      rw [show ({ st with request_counts := upd st.request_counts O now } :
        AppState).users I = none from hI]
    unfold create_contact_handler
    rw [hnv]
    exact ⟨rfl, rfl⟩

/-- C6 at concrete inputs: from `stC` (no throttle entry), a
`create_contact` for the never-registered `nobody@x.com` at time 7 fails
with 401 yet leaves `request_counts o = 7`. -/
theorem C6_throttle_consumed_witness :
    ((create_contact none "o" "nobody@x.com" 7 stC).1).request_counts "o" =
      some 7 ∧
    (create_contact none "o" "nobody@x.com" 7 stC).2 =
      Except.error ApiError.unauthorized := by
  have h := C6_throttle_consumed stC "o" 7 (by decide)
  exact ⟨h.1 none "nobody@x.com", (h.2 none "nobody@x.com" (by decide)).1⟩

/-- Claim C7: when every guard of `create_contact` passes, the cooldown
entry is set to the current time before the upload is attempted, so a
failed upload surfaces `upstreamUnavailable` with the cooldown
consumption left in place — and the committed entry is the same one a
successful upload leaves. -/
theorem C7_cooldown_commit (st : AppState) (O I : String) (now : Int)
    (hthr : throttle_passes st O oneMinute now = true)
    (hver : user_not_verified st I = false)
    (hcan : can_create_contact I oneMinute now st = true) :
    (create_contact none O I now st).2 =
      Except.error ApiError.upstreamUnavailable ∧
    ((create_contact none O I now st).1).last_contact_time I = some now ∧
    ∀ url : String,
      ((create_contact (some url) O I now st).1).last_contact_time I =
        some now := by
  have key : ∀ up : Option String,
      create_contact up O I now st =
        ({ st with
            request_counts := upd st.request_counts O now,
            last_contact_time := upd st.last_contact_time I now },
          match up with
          | none => Except.error ApiError.upstreamUnavailable
          | some url => Except.ok ("Contact created successfully", url)) := by
    intro up
    have hver' : user_not_verified
        { st with request_counts := upd st.request_counts O now } I = false :=
      hver
    have hcan' : can_create_contact I oneMinute now
        { st with request_counts := upd st.request_counts O now } = true :=
      hcan
    unfold create_contact
    rw [rate_limit_passes 5 oneMinute (create_contact_handler up I) O now st
      hthr]
    unfold create_contact_handler
    rw [hver', hcan']
    cases up <;> simp
  refine ⟨?_, ?_, ?_⟩
  · rw [key none]
  · rw [key none]
    simp [upd]
  · intro url
    rw [key (some url)]
    simp [upd]

/-- C7 at concrete inputs: verified `a@x.com`, empty gates, call at
time 3 with a failing upload: 502-class error, cooldown entry 3 kept. -/
theorem C7_cooldown_commit_witness :
    (create_contact none "o" "a@x.com" 3 stV0).2 =
      Except.error ApiError.upstreamUnavailable ∧
    ((create_contact none "o" "a@x.com" 3 stV0).1).last_contact_time
      "a@x.com" = some 3 := by
  have h := C7_cooldown_commit stV0 "o" "a@x.com" 3 (by decide) (by decide)
    (by decide)
  exact ⟨h.1, h.2.1⟩

/-- A `verify_email` with the stored token (whatever the current flag)
succeeds and rewrites the record with `verified = true`. -/
theorem verify_email_correct_token (s : AppState) (I T : String) (b : Bool)
    (h : s.users I = some ⟨b, T⟩) :
    verify_email I T s =
      ({ s with users := upd s.users I ⟨true, T⟩ },
        Except.ok "Email verified successfully") := by
  simp only [verify_email, h]
  rw [if_neg (fun hne => hne rfl)]

/-- Claim C8: registering identity `I` (accepted email) with generated
token `T` leaves it unverified; a first `verify_email` with `T` succeeds
and flips `is_verified I` to true; a second `verify_email` with the same
correct token succeeds again — the stored token is kept — and
`is_verified I` stays true. -/
theorem C8_verify_idempotent (st : AppState) (I T : String)
    (hok : register_email_ok I = true) :
    is_verified (register_user I T st).1 I = false ∧
    (verify_email I T (register_user I T st).1).2 =
      Except.ok "Email verified successfully" ∧
    is_verified (verify_email I T (register_user I T st).1).1 I = true ∧
    (verify_email I T
        (verify_email I T (register_user I T st).1).1).2 =
      Except.ok "Email verified successfully" ∧
    is_verified (verify_email I T
        (verify_email I T (register_user I T st).1).1).1 I = true := by
  have h1 : (register_user I T st).1.users I = some ⟨false, T⟩ := by
    unfold register_user
    rw [if_neg (by rw [hok]; exact fun hc => by cases hc)]
    simp [upd]
  have e1 := verify_email_correct_token (register_user I T st).1 I T false h1
  have h2 : (verify_email I T (register_user I T st).1).1.users I =
      some ⟨true, T⟩ := by
    rw [e1]
    simp [upd]
  have e2 := verify_email_correct_token
    (verify_email I T (register_user I T st).1).1 I T true h2
  refine ⟨?_, ?_, ?_, ?_, ?_⟩
  · unfold is_verified
    rw [h1]
  · rw [e1]
  · unfold is_verified
    rw [h2]
  · rw [e2]
  · unfold is_verified
    rw [e2]
    simp [upd]

/-- C8 at concrete inputs: `a@example.com` registered at the initial
state with token `tok`, then verified twice with `tok`. -/
theorem C8_verify_idempotent_witness :
    is_verified (register_user "a@example.com" "tok" emptyState).1
      "a@example.com" = false ∧
    (verify_email "a@example.com" "tok"
        (register_user "a@example.com" "tok" emptyState).1).2 =
      Except.ok "Email verified successfully" ∧
    is_verified (verify_email "a@example.com" "tok"
        (register_user "a@example.com" "tok" emptyState).1).1
      "a@example.com" = true ∧
    (verify_email "a@example.com" "tok"
        (verify_email "a@example.com" "tok"
          (register_user "a@example.com" "tok" emptyState).1).1).2 =
      Except.ok "Email verified successfully" ∧
    is_verified (verify_email "a@example.com" "tok"
        (verify_email "a@example.com" "tok"
          (register_user "a@example.com" "tok" emptyState).1).1).1
      "a@example.com" = true :=
  C8_verify_idempotent emptyState "a@example.com" "tok" (by decide)
